import Mathlib

/-!
# Verification of the asteroids game core (`game.py`)

Shallow embedding of the simulation core of the single-file pygame asteroids
clone.  Conventions used throughout:

* Coordinates and scalar quantities are rationals (`ℚ`).  The Python source
  uses IEEE floats, but every comparison exercised by the concrete traces in
  this file involves only integers, halves and other small dyadic rationals,
  on which float arithmetic is exact, so the rational semantics agrees with
  the float semantics on those traces.
* The source compares `math.sqrt(dx**2 + dy**2)` against a nonnegative
  threshold `t`; we embed that comparison as `dx^2 + dy^2 < t^2`, which is
  equivalent over the reals (all thresholds in the source are positive
  constants) and keeps the model decidable.
* Randomness (`random.randint`, `random.random`) is embedded as an explicit
  stream of samples carried in the game state; the position-sampling loop of
  `make_rock` accepts exactly the positions the source can accept (integer
  coordinates inside the 800×600 viewport whose distance to the ship is at
  least `min_rock_distance`).
* Trigonometry: the source derives direction vectors via
  `math.sin(-math.radians(angle))` and `math.cos(math.radians(angle))`.
  Real sine/cosine are not rational-valued, so the model abstracts them as
  parameters `sinD cosD : ℤ → ℚ` (degree arguments).  Theorems that depend
  on actual trigonometric values either quantify over these parameters with
  hypotheses pinning the values the real functions take at the angles
  involved (multiples of 90°, where sine and cosine are exactly 0, ±1 — also
  exactly in float arithmetic), or instantiate them with the table
  `sinDTab`/`cosDTab` below, which agrees with real degree-trig at all
  multiples of 90°.
* Sounds, timers and drawing are external collaborators; only their
  state-machine effects (state changes, counters) are modelled.
* The pygame sprite sizes (`self.image.get_width()`/`get_height()`) are
  external assets; they appear as parameters `w h : ℚ`.
-/

set_option maxRecDepth 4000

namespace Asteroids

/-- `distance p q < t` as the source checks it (squared form; the source
compares `math.sqrt((p0-q0)**2 + (p1-q1)**2)` with `t`, all thresholds
positive). -/
def distLtB (p q : ℚ × ℚ) (t : ℚ) : Bool :=
  decide ((p.1 - q.1) ^ 2 + (p.2 - q.2) ^ 2 < t ^ 2)

/-- `distance p q > t` (squared form), used for the out-of-screen test. -/
def distGtB (p q : ℚ × ℚ) (t : ℚ) : Bool :=
  decide ((p.1 - q.1) ^ 2 + (p.2 - q.2) ^ 2 > t ^ 2)

/-- The three rock size categories (`"big"`, `"normal"`, `"small"`). -/
inductive RSize : Type
  | big
  | normal
  | small
deriving DecidableEq, Repr

/-- A rock (class `Rock`): position, size category, random direction vector
and scalar speed (the constructor's default, 4, is used at every call site in
the source). -/
structure Rock where
  pos : ℚ × ℚ
  rsize : RSize
  dir : ℚ × ℚ
  speed : ℚ
deriving DecidableEq, Repr

/-- `Rock.move`: `position += direction * speed` componentwise. -/
def Rock.move (r : Rock) : Rock :=
  { r with pos := (r.pos.1 + r.dir.1 * r.speed, r.pos.2 + r.dir.2 * r.speed) }

/-- A missile (class `Missile`): position, firing angle in degrees, scalar
speed (constant 15 at the only construction site, `Spaceship.fire`).  Its
direction is recomputed from the angle on every `move`, so it is not stored. -/
structure Missile where
  pos : ℚ × ℚ
  angle : ℤ
  speed : ℚ
deriving DecidableEq, Repr

/-- The spaceship (class `Spaceship`): position, angle in degrees, integer
speed (0 initially, changed by ±1 steps), throttle flag, and the list of
active missiles it has fired. -/
structure Ship where
  pos : ℚ × ℚ
  angle : ℤ
  speed : ℤ
  throttle : Bool
  missiles : List Missile
deriving DecidableEq, Repr

/-- A fresh spaceship, as created by `MyGame.start`:
`Spaceship((width//2, height//2))` with angle 0, speed 0, no missiles. -/
def freshShip : Ship :=
  { pos := (400, 300), angle := 0, speed := 0, throttle := false, missiles := [] }

/-- The five game states of `MyGame`. -/
inductive GState : Type
  | PLAYING
  | DYING
  | GAME_OVER
  | STARTING
  | WELCOME
deriving DecidableEq, Repr

/-- The whole mutable game state of `MyGame` that the simulation core reads
and writes.  `rand` is the stream of pending random samples (a pair of
rationals per `random` draw); `fireTime` is the wall-clock time of the last
missile shot (seconds). -/
structure GameState where
  rocks : List Rock
  ship : Ship
  lives : ℤ
  score : ℤ
  counter : ℤ
  minRockDistance : ℚ
  state : GState
  fireTime : ℚ
  rand : List (ℚ × ℚ)
deriving DecidableEq, Repr

/-- Death distances by rock size (`self.death_distances = {"big":90,"normal":65,"small":40}`). -/
def deathDistance : RSize → ℚ
  | .big => 90
  | .normal => 65
  | .small => 40

/-- Missile hit thresholds by rock size (80 / 55 / 30 in `missiles_physics`). -/
def hitThreshold : RSize → ℚ
  | .big => 80
  | .normal => 55
  | .small => 30

/-- Take the next random sample off the stream (used for a rock's direction
vector; components of real samples lie in `(-1, 1)`). -/
def takeSample (s : List (ℚ × ℚ)) : (ℚ × ℚ) × List (ℚ × ℚ) :=
  match s with
  | [] => ((0, 0), [])
  | x :: rest => (x, rest)

/-- Whether a sampled position can be the result of the position-sampling
loop of `make_rock`: `randint` only produces integer coordinates inside the
800×600 viewport, and the `while` loop rejects candidates with
`distance(candidate, spaceship.position) < min_rock_distance`. -/
def validSpawnPos (shipPos : ℚ × ℚ) (minD : ℚ) (p : ℚ × ℚ) : Bool :=
  p.1.den = 1 && p.2.den = 1 && decide (0 ≤ p.1) && decide (p.1 ≤ 800) &&
  decide (0 ≤ p.2) && decide (p.2 ≤ 600) && !(distLtB p shipPos minD)

/-- The position-sampling loop of `make_rock` (random branch): keep drawing
until a candidate at acceptable distance from the ship appears.  The source
loop has no bound; the model consumes the explicit sample stream (the final
fallback is never reached in any trace used below). -/
def findPos (shipPos : ℚ × ℚ) (minD : ℚ) : List (ℚ × ℚ) → (ℚ × ℚ) × List (ℚ × ℚ)
  | [] => ((0, 0), [])
  | p :: rest => if validSpawnPos shipPos minD p then (p, rest) else findPos shipPos minD rest

/-- `MyGame.make_rock(size, pos)`: build a rock (at the given position, or at
a sampled one at acceptable distance from the ship) with a random direction
and the default speed 4, and append it to the rocks list. -/
def makeRock (rsize : RSize) (posArg : Option (ℚ × ℚ)) (g : GameState) : GameState :=
  match posArg with
  | some p =>
      { g with rocks := g.rocks ++
                 [{ pos := p, rsize := rsize, dir := (takeSample g.rand).1, speed := 4 }],
               rand := (takeSample g.rand).2 }
  | none =>
      let pr := findPos g.ship.pos g.minRockDistance g.rand
      { g with rocks := g.rocks ++
                 [{ pos := pr.1, rsize := rsize, dir := (takeSample pr.2).1, speed := 4 }],
               rand := (takeSample pr.2).2 }

/-- `MyGame.die`: lose a life.  The sound and the one-shot START timer are
external; the state effect is exactly: decrement `lives`, reset `counter`,
enter the DYING state.  There is no guard of any kind. -/
def die (g : GameState) : GameState :=
  { g with lives := g.lives - 1, counter := 0, state := GState.DYING }

/-- One thrust/drag update of the ship's speed (the `K_UP`/`K_w` branch of
the refresh handler): `+1` up to the cap 20 when the key is held, `-1` down
to the floor 0 otherwise. -/
def speedStep (up : Bool) (s : ℤ) : ℤ :=
  if up then (if s < 20 then s + 1 else s)
  else (if s > 0 then s - 1 else s)

/-- Placeholder rock for guarded list lookups (every lookup below is guarded
by an index bound, so this value is never observed). -/
def dfltRock : Rock := { pos := (0, 0), rsize := RSize.big, dir := (0, 0), speed := 4 }

/-- Placeholder missile for guarded list lookups. -/
def dfltMissile : Missile := { pos := (0, 0), angle := 0, speed := 15 }

/-- The `adjust` vector computed by `Spaceship.fire`:
`adjust[0] = sin(-radians(angle)) * image.get_width()`,
`adjust[1] = -cos(radians(angle)) * image.get_height()`.
Here `s` stands for `sin(-radians(angle))`, `c` for `cos(radians(angle))`,
`w`/`h` for the sprite width/height. -/
def fireAdjust (s c w h : ℚ) : ℚ × ℚ := (s * w, -(c * h))

/-- The missile spawn offset from the ship's centre that `Spaceship.fire`
actually uses: `(position[0] + adjust[0], position[1] + adjust[1] / 2)`, i.e.
the full `adjust[0]` but only half of `adjust[1]`. -/
def fireSpawnOffset (s c w h : ℚ) : ℚ × ℚ :=
  ((fireAdjust s c w h).1, (fireAdjust s c w h).2 / 2)

/-- Modelled from the spec's words, for comparison with `fireSpawnOffset`:
"a projectile spawn position offset from the ship's center along its heading
by the sprite's half-width/half-height" — the heading direction is
`(s, -c)`, so the offset would be `(s * (w/2), -c * (h/2))`. -/
def fireSpawnOffsetSpec (s c w h : ℚ) : ℚ × ℚ := (s * (w / 2), -(c * (h / 2)))

section Model

/- `sinD θ` stands for `math.sin(math.radians(θ))` and `cosD θ` for
`math.cos(math.radians(θ))`; `w`/`h` are the spaceship sprite's pixel width
and height (external assets). -/
variable (sinD cosD : ℤ → ℚ) (w h : ℚ)

/-- `Spaceship.fire`: create a missile at the ship's centre shifted by the
fire offset, with the ship's current angle and the fixed speed 15, and
append it to the active missile list. -/
def fireStep (g : GameState) (now : ℚ) : GameState :=
  let s := g.ship
  let off := fireSpawnOffset (sinD (-s.angle)) (cosD s.angle) w h
  let m : Missile := { pos := (s.pos.1 + off.1, s.pos.2 + off.2), angle := s.angle, speed := 15 }
  { g with ship := { s with missiles := s.missiles ++ [m] }, fireTime := now }

/-- `Missile.move`: recompute the direction from the angle and advance the
position by `direction * speed`. -/
def missileMove (m : Missile) : Missile :=
  let d : ℚ × ℚ := (sinD (-m.angle), -(cosD m.angle))
  { m with pos := (m.pos.1 + d.1 * m.speed, m.pos.2 + d.2 * m.speed) }

/-- `Spaceship.move`: recompute the direction from the angle and advance the
position by `direction * speed`. -/
def shipMove (s : Ship) : Ship :=
  let d : ℚ × ℚ := (sinD (-s.angle), -(cosD s.angle))
  { s with pos := (s.pos.1 + d.1 * (s.speed : ℚ), s.pos.2 + d.2 * (s.speed : ℚ)) }

end Model

/-- One inner-loop iteration of `MyGame.missiles_physics`: the moved missile
`m` (living at index `mi` of the active list while `alive` is true) is tested
against the rock at index `ri`.  On a hit: the rock is removed, the missile is
removed if still present (`if missile in self.spaceship.active_missiles`),
the size-dependent spawns happen and the score is increased.  Returns the new
state together with the updated `alive` flag. -/
def missileHitRock (g : GameState) (alive : Bool) (mi : Nat) (m : Missile) (ri : Nat) :
    GameState × Bool :=
  let r := g.rocks.getD ri dfltRock
  if distLtB m.pos r.pos (hitThreshold r.rsize) then
    let ms := if alive then g.ship.missiles.eraseIdx mi else g.ship.missiles
    let g2 := { g with rocks := g.rocks.eraseIdx ri, ship := { g.ship with missiles := ms } }
    match r.rsize with
    | RSize.big =>
        let g3 := makeRock RSize.normal (some (r.pos.1 + 10, r.pos.2)) g2
        let g4 := makeRock RSize.normal (some (r.pos.1 - 10, r.pos.2)) g3
        ({ g4 with score := g4.score + 20 }, false)
    | RSize.normal =>
        let g3 := makeRock RSize.small (some (r.pos.1 + 10, r.pos.2)) g2
        let g4 := makeRock RSize.small (some (r.pos.1 - 10, r.pos.2)) g3
        ({ g4 with score := g4.score + 50 }, false)
    | RSize.small =>
        let g3 := if g2.rocks.length < 10 then makeRock RSize.big none g2 else g2
        ({ g3 with score := g3.score + 100 }, false)
  else (g, alive)

/-- The inner `for rock in self.rocks` loop of `missiles_physics` for one
missile.  Python's list iterator is index-based, so removing the current
element makes the next element shift into its slot and be skipped, and
elements appended during iteration are visited; advancing the index by one
at every step reproduces both behaviours.  `fuel` bounds the iteration (the
source loop has no static bound because spawned rocks are also visited). -/
def missileRocksLoop (fuel : Nat) (g : GameState) (alive : Bool) (mi : Nat) (m : Missile)
    (ri : Nat) : GameState × Bool :=
  match fuel with
  | 0 => (g, alive)
  | fuel' + 1 =>
      if ri < g.rocks.length then
        missileRocksLoop fuel' (missileHitRock g alive mi m ri).1
          (missileHitRock g alive mi m ri).2 mi m (ri + 1)
      else (g, alive)

section Model2

variable (sinD cosD : ℤ → ℚ)

/-- The outer `for missile in self.spaceship.active_missiles` loop of
`missiles_physics`: move the missile at index `mi` (the object is shared with
the list, so the list sees the move), then run its rock scan. -/
def missilesLoop (fuel : Nat) (g : GameState) (mi : Nat) : GameState :=
  match fuel with
  | 0 => g
  | fuel' + 1 =>
      if mi < g.ship.missiles.length then
        let m' := missileMove sinD cosD (g.ship.missiles.getD mi dfltMissile)
        let g1 := { g with ship := { g.ship with missiles := g.ship.missiles.set mi m' } }
        missilesLoop fuel' (missileRocksLoop fuel g1 true mi m' 0).1 (mi + 1)
      else g

/-- `MyGame.missiles_physics` (the body is guarded by
`if len(self.spaceship.active_missiles) > 0`, which the empty loop already
handles identically). -/
def missilesPhysics (fuel : Nat) (g : GameState) : GameState :=
  if g.ship.missiles.length > 0 then missilesLoop sinD cosD fuel g 0 else g

end Model2

/-- One iteration of the `for rock in self.rocks` loop of
`MyGame.rocks_physics`: move the rock in place, then either lose a life
(distance to the ship below the size's death distance — `die()` is invoked
and the loop carries on), or else remove the rock when it left the screen
circle of radius 500 (= `sqrt(400^2 + 300^2)`) around the centre `(400,300)`
and respawn a same-size rock when fewer than 10 remain. -/
def rockStep (g : GameState) (ri : Nat) : GameState :=
  let r := g.rocks.getD ri dfltRock
  let r' := r.move
  let g1 := { g with rocks := g.rocks.set ri r' }
  if distLtB r'.pos g1.ship.pos (deathDistance r'.rsize) then die g1
  else if distGtB r'.pos (400, 300) 500 then
    let g2 := { g1 with rocks := g1.rocks.eraseIdx ri }
    if g2.rocks.length < 10 then makeRock r'.rsize none g2 else g2
  else g1

/-- The rock loop of `rocks_physics`, with the same index-based iterator
semantics as above. -/
def rocksLoop (fuel : Nat) (g : GameState) (ri : Nat) : GameState :=
  match fuel with
  | 0 => g
  | fuel' + 1 =>
      if ri < g.rocks.length then rocksLoop fuel' (rockStep g ri) (ri + 1)
      else g

/-- `MyGame.rocks_physics` (the `if len(self.rocks) > 0` guard is identical
to running the empty loop). -/
def rocksPhysics (fuel : Nat) (g : GameState) : GameState :=
  if g.rocks.length > 0 then rocksLoop fuel g 0 else g

/-- `MyGame.draw`, restricted to its state effects: while PLAYING, increment
the survival counter; when it reaches `20 * FPS = 600`, spawn a big rock if
fewer than 15 are live, decrease `min_rock_distance` by 50 — but only when
it is *below* 200 (`if self.min_rock_distance < 200`), despite the adjacent
comment announcing a difficulty ramp — and reset the counter. -/
def drawTick (g : GameState) : GameState :=
  if g.state = GState.PLAYING then
    let c := g.counter + 1
    if c = 600 then
      let g1 := if g.rocks.length < 15 then makeRock RSize.big none g else g
      let m' := if g1.minRockDistance < 200 then g1.minRockDistance - 50 else g1.minRockDistance
      { g1 with minRockDistance := m', counter := 0 }
    else { g with counter := c }
  else g

/-- The pressed-key snapshot read by the refresh handler (`K_RIGHT`/`K_d`,
`K_LEFT`/`K_a`, `K_UP`/`K_w` pairs collapsed to one flag each). -/
structure Keys where
  space : Bool
  right : Bool
  left : Bool
  up : Bool
deriving DecidableEq, Repr

/-- No key pressed. -/
def noKeys : Keys := { space := false, right := false, left := false, up := false }

/-- The events the `MyGame.run` loop reacts to (QUIT merely exits).
`refresh` carries the pressed keys and the wall-clock time (seconds) used by
the fire-rate gate; `start`/`restart` are the custom one-shot timer events;
`click`/`enter` are `MOUSEBUTTONDOWN` / `K_RETURN`. -/
inductive Ev : Type
  | refresh (keys : Keys) (now : ℚ)
  | start
  | restart
  | click
  | enter
deriving DecidableEq, Repr

/-- `MyGame.start`: fresh spaceship at the centre, empty missile list, state
PLAYING (soundtrack restart is external). -/
def startShip (g : GameState) : GameState :=
  { g with ship := freshShip, state := GState.PLAYING }

/-- `MyGame.do_init`: reset rocks, reset `min_rock_distance` to 350, call
`start()`, spawn 4 big rocks, then reset lives, score and counter. -/
def doInit (g : GameState) : GameState :=
  let g1 := startShip { g with rocks := [], minRockDistance := 350 }
  let g2 := makeRock RSize.big none g1
  let g3 := makeRock RSize.big none g2
  let g4 := makeRock RSize.big none g3
  let g5 := makeRock RSize.big none g4
  { g5 with lives := 3, score := 0, counter := 0 }

/-- The `MyGame.START` timer handler: game over when no life is left,
otherwise reset the rocks, spawn 4 big ones (still against the old ship's
position) and start a fresh life. -/
def onStart (g : GameState) : GameState :=
  if g.lives < 1 then { g with state := GState.GAME_OVER }
  else
    let g1 := { g with rocks := [] }
    let g2 := makeRock RSize.big none g1
    let g3 := makeRock RSize.big none g2
    let g4 := makeRock RSize.big none g3
    let g5 := makeRock RSize.big none g4
    startShip g5

section Model3

variable (sinD cosD : ℤ → ℚ) (w h : ℚ)

/-- `MyGame.physics`: move the spaceship, but only while still PLAYING
(`die()` may have changed the state earlier in the same tick). -/
def physicsStep (g5 : GameState) : GameState :=
  if g5.state = GState.PLAYING then { g5 with ship := shipMove sinD cosD g5.ship } else g5

/-- The body of the `if self.state == MyGame.PLAYING` block of the refresh
handler: rotation (±10° mod 360, right key processed first), the thrust/drag
speed step, missile physics, rock physics and finally `physics()`. -/
def playBlock (fuel : Nat) (keys : Keys) (g1 : GameState) : GameState :=
  let s := g1.ship
  let a1 := if keys.right then (s.angle - 10).emod 360 else s.angle
  let a2 := if keys.left then (a1 + 10).emod 360 else a1
  let s' := { s with angle := a2, speed := speedStep keys.up s.speed,
                     throttle := keys.up }
  let g3 := { g1 with ship := s' }
  physicsStep sinD cosD (rocksPhysics fuel (missilesPhysics sinD cosD fuel g3))

/-- The `if self.state != MyGame.WELCOME` part of the refresh handler: the
rate-limited fire key (active in every non-welcome state), then the PLAYING
block. -/
def refreshCore (fuel : Nat) (keys : Keys) (now : ℚ) (g : GameState) : GameState :=
  let g1 := if keys.space && decide (now - g.fireTime > 3/20)
    then fireStep sinD cosD w h g now else g
  if g1.state = GState.PLAYING then playBlock sinD cosD fuel keys g1 else g1

def onRefresh (fuel : Nat) (keys : Keys) (now : ℚ) (g : GameState) : GameState :=
  drawTick (if g.state = GState.WELCOME then g else refreshCore sinD cosD w h fuel keys now g)

/-- One event of the `MyGame.run` loop. -/
def stepEv (fuel : Nat) (g : GameState) (e : Ev) : GameState :=
  match e with
  | Ev.refresh keys now => onRefresh sinD cosD w h fuel keys now g
  | Ev.start => onStart g
  | Ev.restart => { g with state := GState.STARTING }
  | Ev.click => if g.state = GState.STARTING ∨ g.state = GState.WELCOME then doInit g else g
  | Ev.enter => if g.state = GState.STARTING ∨ g.state = GState.WELCOME then doInit g else g

/-- Run a sequence of events. -/
def runEvents (fuel : Nat) (es : List Ev) (g : GameState) : GameState :=
  es.foldl (stepEv sinD cosD w h fuel) g

end Model3

/-- The state right after `MyGame.__init__`/`do_welcome`: welcome screen is
up; rocks, lives, score, counter and `min_rock_distance` are not yet
assigned (they are first assigned in `do_init`), so their initial values
here are placeholders that no handler reads before `do_init` runs.  The
sample stream for all subsequent random draws is `rand`. -/
def initGame (rand : List (ℚ × ℚ)) : GameState :=
  { rocks := [], ship := freshShip, lives := 0, score := 0, counter := 0,
    minRockDistance := 350, state := GState.WELCOME, fireTime := 0, rand := rand }

/-- Exact values of `sin(radians θ)` at the multiples of 90° (the only
angles at which the concrete traces below evaluate the trigonometric
oracle); real degree-sine takes exactly these rational values there, and
float arithmetic also realises them exactly. -/
def sinDTab (θ : ℤ) : ℚ :=
  if θ.emod 360 = 0 then 0
  else if θ.emod 360 = 90 then 1
  else if θ.emod 360 = 180 then 0
  else if θ.emod 360 = 270 then -1
  else 0

/-- Exact values of `cos(radians θ)` at the multiples of 90°, as `sinDTab`. -/
def cosDTab (θ : ℤ) : ℚ :=
  if θ.emod 360 = 0 then 1
  else if θ.emod 360 = 90 then 0
  else if θ.emod 360 = 180 then -1
  else if θ.emod 360 = 270 then 0
  else 0

/-- A Python `Rock` instance as `Rock.__init__` leaves it: each attribute is
`none` while unassigned.  With a valid size, `__init__` assigns all five
attributes; with an invalid one it executes `return None` *before any
assignment*, which in Python does not abort construction — the caller still
receives the (attribute-less) instance. -/
structure RockObj where
  image : Option String
  rsize : Option String
  position : Option (ℚ × ℚ)
  speed : Option ℚ
  direction : Option (ℚ × ℚ)
deriving DecidableEq, Repr

/-- `Rock.__init__(position, size, speed=4)` with the random direction draw
made explicit.  The result is the constructed object; Python raises nothing
here, so construction always "succeeds" — `Except` records that no
validation failure is signalled on the invalid path either. -/
def rockInit (position : ℚ × ℚ) (rsize : String) (speed : ℚ) (randDir : ℚ × ℚ) :
    Except String RockObj :=
  if rsize = "big" ∨ rsize = "normal" ∨ rsize = "small" then
    Except.ok { image := some ("rock-" ++ rsize ++ ".png"), rsize := some rsize,
                position := some position, speed := some speed, direction := some randDir }
  else
    Except.ok { image := none, rsize := none, position := none, speed := none,
                direction := none }

/-! ## Preservation lemmas

Small facts about which state components each operation leaves untouched,
used by the invariant proofs below. -/

theorem makeRock_ship (s : RSize) (p : Option (ℚ × ℚ)) (g : GameState) :
    (makeRock s p g).ship = g.ship := by
  cases p <;> rfl

theorem makeRock_lives (s : RSize) (p : Option (ℚ × ℚ)) (g : GameState) :
    (makeRock s p g).lives = g.lives := by
  cases p <;> rfl

theorem makeRock_state (s : RSize) (p : Option (ℚ × ℚ)) (g : GameState) :
    (makeRock s p g).state = g.state := by
  cases p <;> rfl

theorem makeRock_rocks (s : RSize) (p : Option (ℚ × ℚ)) (g : GameState) :
    ∃ r : Rock, (makeRock s p g).rocks = g.rocks ++ [r] ∧ r.speed = 4 := by
  cases p with
  | none => exact ⟨_, rfl, rfl⟩
  | some q => exact ⟨_, rfl, rfl⟩

theorem die_ship (g : GameState) : (die g).ship = g.ship := rfl

theorem die_rocks (g : GameState) : (die g).rocks = g.rocks := rfl

theorem fireStep_ship_speed (sinD cosD : ℤ → ℚ) (w h : ℚ) (g : GameState) (now : ℚ) :
    (fireStep sinD cosD w h g now).ship.speed = g.ship.speed := rfl

theorem fireStep_rocks (sinD cosD : ℤ → ℚ) (w h : ℚ) (g : GameState) (now : ℚ) :
    (fireStep sinD cosD w h g now).rocks = g.rocks := rfl

theorem shipMove_speed (sinD cosD : ℤ → ℚ) (s : Ship) :
    (shipMove sinD cosD s).speed = s.speed := rfl

theorem drawTick_ship (g : GameState) : (drawTick g).ship = g.ship := by
  simp only [drawTick]
  split_ifs <;> simp [makeRock_ship]

theorem missileHitRock_ship_speed (g : GameState) (a : Bool) (mi : Nat) (m : Missile)
    (ri : Nat) : (missileHitRock g a mi m ri).1.ship.speed = g.ship.speed := by
  unfold missileHitRock
  dsimp only
  split
  · cases (g.rocks.getD ri dfltRock).rsize <;> dsimp only
    · simp [makeRock_ship]
    · simp [makeRock_ship]
    · split <;> simp [makeRock_ship]
  · rfl

theorem missileHitRock_lives (g : GameState) (a : Bool) (mi : Nat) (m : Missile)
    (ri : Nat) : (missileHitRock g a mi m ri).1.lives = g.lives := by
  unfold missileHitRock
  dsimp only
  split
  · cases (g.rocks.getD ri dfltRock).rsize <;> dsimp only
    · simp [makeRock_lives]
    · simp [makeRock_lives]
    · split <;> simp [makeRock_lives]
  · rfl

theorem missileRocksLoop_ship_speed (fuel : Nat) (g : GameState) (a : Bool) (mi : Nat)
    (m : Missile) (ri : Nat) :
    (missileRocksLoop fuel g a mi m ri).1.ship.speed = g.ship.speed := by
  induction fuel generalizing g a ri with
  | zero => rfl
  | succ fuel ih =>
      unfold missileRocksLoop
      split
      · rw [ih]; exact missileHitRock_ship_speed ..
      · rfl

theorem missilesLoop_ship_speed (sinD cosD : ℤ → ℚ) (fuel : Nat) (g : GameState) (mi : Nat) :
    (missilesLoop sinD cosD fuel g mi).ship.speed = g.ship.speed := by
  induction fuel generalizing g mi with
  | zero => rfl
  | succ fuel ih =>
      unfold missilesLoop
      split
      · rw [ih, missileRocksLoop_ship_speed]
      · rfl

theorem missilesPhysics_ship_speed (sinD cosD : ℤ → ℚ) (fuel : Nat) (g : GameState) :
    (missilesPhysics sinD cosD fuel g).ship.speed = g.ship.speed := by
  unfold missilesPhysics
  split
  · exact missilesLoop_ship_speed ..
  · rfl

theorem rockStep_ship (g : GameState) (ri : Nat) : (rockStep g ri).ship = g.ship := by
  unfold rockStep
  dsimp only
  split
  · rfl
  · split
    · split <;> simp [makeRock_ship]
    · rfl

theorem rocksLoop_ship (fuel : Nat) (g : GameState) (ri : Nat) :
    (rocksLoop fuel g ri).ship = g.ship := by
  induction fuel generalizing g ri with
  | zero => rfl
  | succ fuel ih =>
      unfold rocksLoop
      split
      · rw [ih, rockStep_ship]
      · rfl

theorem rocksPhysics_ship (fuel : Nat) (g : GameState) :
    (rocksPhysics fuel g).ship = g.ship := by
  unfold rocksPhysics
  split
  · exact rocksLoop_ship ..
  · rfl

/-! ## Ship speed bounds (for C6) -/

theorem speedStep_bounds (up : Bool) (s : ℤ) (h0 : 0 ≤ s) (h20 : s ≤ 20) :
    0 ≤ speedStep up s ∧ speedStep up s ≤ 20 := by
  unfold speedStep
  split_ifs <;> omega

theorem doInit_ship (g : GameState) : (doInit g).ship = freshShip := by
  unfold doInit
  simp [makeRock_ship, startShip]

theorem onStart_ship_speed (g : GameState) (h0 : 0 ≤ g.ship.speed) (h20 : g.ship.speed ≤ 20) :
    0 ≤ (onStart g).ship.speed ∧ (onStart g).ship.speed ≤ 20 := by
  unfold onStart
  split
  · exact ⟨h0, h20⟩
  · simp [startShip, makeRock_ship, freshShip]

theorem physicsStep_ship_speed (sinD cosD : ℤ → ℚ) (g : GameState) :
    (physicsStep sinD cosD g).ship.speed = g.ship.speed := by
  unfold physicsStep
  split
  · exact shipMove_speed ..
  · rfl

theorem playBlock_ship_speed (sinD cosD : ℤ → ℚ) (fuel : Nat) (keys : Keys)
    (g1 : GameState) :
    (playBlock sinD cosD fuel keys g1).ship.speed = speedStep keys.up g1.ship.speed := by
  unfold playBlock
  rw [physicsStep_ship_speed, rocksPhysics_ship, missilesPhysics_ship_speed]

theorem refreshCore_ship_speed (sinD cosD : ℤ → ℚ) (w h : ℚ) (fuel : Nat) (keys : Keys)
    (now : ℚ) (g : GameState) (h0 : 0 ≤ g.ship.speed) (h20 : g.ship.speed ≤ 20) :
    0 ≤ (refreshCore sinD cosD w h fuel keys now g).ship.speed ∧
      (refreshCore sinD cosD w h fuel keys now g).ship.speed ≤ 20 := by
  unfold refreshCore
  dsimp only
  split
  · split
    · rw [playBlock_ship_speed, fireStep_ship_speed]
      exact speedStep_bounds _ _ h0 h20
    · rw [fireStep_ship_speed]; exact ⟨h0, h20⟩
  · split
    · rw [playBlock_ship_speed]
      exact speedStep_bounds _ _ h0 h20
    · exact ⟨h0, h20⟩

theorem onRefresh_ship_speed (sinD cosD : ℤ → ℚ) (w h : ℚ) (fuel : Nat) (keys : Keys)
    (now : ℚ) (g : GameState) (h0 : 0 ≤ g.ship.speed) (h20 : g.ship.speed ≤ 20) :
    0 ≤ (onRefresh sinD cosD w h fuel keys now g).ship.speed ∧
      (onRefresh sinD cosD w h fuel keys now g).ship.speed ≤ 20 := by
  unfold onRefresh
  rw [drawTick_ship]
  split
  · exact ⟨h0, h20⟩
  · exact refreshCore_ship_speed sinD cosD w h fuel keys now g h0 h20

theorem stepEv_ship_speed (sinD cosD : ℤ → ℚ) (w h : ℚ) (fuel : Nat) (g : GameState)
    (e : Ev) (h0 : 0 ≤ g.ship.speed) (h20 : g.ship.speed ≤ 20) :
    0 ≤ (stepEv sinD cosD w h fuel g e).ship.speed ∧
      (stepEv sinD cosD w h fuel g e).ship.speed ≤ 20 := by
  cases e with
  | refresh keys now =>
      simpa only [stepEv] using onRefresh_ship_speed sinD cosD w h fuel keys now g h0 h20
  | start => simpa only [stepEv] using onStart_ship_speed g h0 h20
  | restart => simp only [stepEv]; exact ⟨h0, h20⟩
  | click =>
      simp only [stepEv]
      split
      · rw [doInit_ship]; exact ⟨by decide, by decide⟩
      · exact ⟨h0, h20⟩
  | enter =>
      simp only [stepEv]
      split
      · rw [doInit_ship]; exact ⟨by decide, by decide⟩
      · exact ⟨h0, h20⟩

theorem runEvents_ship_speed (sinD cosD : ℤ → ℚ) (w h : ℚ) (fuel : Nat) (es : List Ev)
    (g : GameState) (h0 : 0 ≤ g.ship.speed) (h20 : g.ship.speed ≤ 20) :
    0 ≤ (runEvents sinD cosD w h fuel es g).ship.speed ∧
      (runEvents sinD cosD w h fuel es g).ship.speed ≤ 20 := by
  induction es generalizing g with
  | nil => exact ⟨h0, h20⟩
  | cons e es ih =>
      have hs := stepEv_ship_speed sinD cosD w h fuel g e h0 h20
      exact ih (stepEv sinD cosD w h fuel g e) hs.1 hs.2

/-! ## Rock speed invariant (for C10) -/

/-- Every live rock has the constructor-default scalar speed 4. -/
def RocksSpeed4 (g : GameState) : Prop := ∀ r ∈ g.rocks, r.speed = 4

theorem rockMove_speed (r : Rock) : r.move.speed = r.speed := rfl

theorem rocksSpeed4_makeRock (s : RSize) (p : Option (ℚ × ℚ)) (g : GameState)
    (hg : RocksSpeed4 g) : RocksSpeed4 (makeRock s p g) := by
  intro r hr
  obtain ⟨nr, heq, hsp⟩ := makeRock_rocks s p g
  rw [heq, List.mem_append] at hr
  rcases hr with hr | hr
  · exact hg r hr
  · simp only [List.mem_singleton] at hr
    rw [hr]; exact hsp

theorem rocksSpeed4_getD (g : GameState) (ri : Nat) (hg : RocksSpeed4 g) :
    (g.rocks.getD ri dfltRock).speed = 4 := by
  by_cases hlt : ri < g.rocks.length
  · rw [List.getD_eq_getElem _ _ hlt]
    exact hg _ (List.getElem_mem hlt)
  · rw [List.getD_eq_default _ _ (Nat.le_of_not_lt hlt)]
    rfl

theorem rocksSpeed4_eraseIdx (l : List Rock) (i : Nat) (hg : ∀ r ∈ l, r.speed = 4) :
    ∀ r ∈ l.eraseIdx i, r.speed = 4 :=
  fun r hr => hg r (List.mem_of_mem_eraseIdx hr)

theorem rocksSpeed4_missileHitRock (g : GameState) (a : Bool) (mi : Nat) (m : Missile)
    (ri : Nat) (hg : RocksSpeed4 g) : RocksSpeed4 (missileHitRock g a mi m ri).1 := by
  unfold missileHitRock
  dsimp only
  have hl : ∀ r ∈ g.rocks.eraseIdx ri, r.speed = 4 := rocksSpeed4_eraseIdx g.rocks ri hg
  split
  · cases (g.rocks.getD ri dfltRock).rsize
    case big =>
      intro r hr
      refine rocksSpeed4_makeRock _ _ _ (rocksSpeed4_makeRock _ _ _ ?_) r hr
      exact hl
    case normal =>
      intro r hr
      refine rocksSpeed4_makeRock _ _ _ (rocksSpeed4_makeRock _ _ _ ?_) r hr
      exact hl
    case small =>
      intro r hr
      dsimp only at hr
      split at hr
      · refine rocksSpeed4_makeRock _ _ _ ?_ r hr
        exact hl
      · exact hl r hr
  · exact hg

theorem rocksSpeed4_missileRocksLoop (fuel : Nat) (g : GameState) (a : Bool) (mi : Nat)
    (m : Missile) (ri : Nat) (hg : RocksSpeed4 g) :
    RocksSpeed4 (missileRocksLoop fuel g a mi m ri).1 := by
  induction fuel generalizing g a ri with
  | zero => exact hg
  | succ fuel ih =>
      unfold missileRocksLoop
      split
      · exact ih _ _ _ (rocksSpeed4_missileHitRock g a mi m ri hg)
      · exact hg

theorem rocksSpeed4_missilesLoop (sinD cosD : ℤ → ℚ) (fuel : Nat) (g : GameState)
    (mi : Nat) (hg : RocksSpeed4 g) : RocksSpeed4 (missilesLoop sinD cosD fuel g mi) := by
  induction fuel generalizing g mi with
  | zero => exact hg
  | succ fuel ih =>
      unfold missilesLoop
      split
      · refine ih _ _ (rocksSpeed4_missileRocksLoop _ _ true mi _ 0 ?_)
        exact hg
      · exact hg

theorem rocksSpeed4_missilesPhysics (sinD cosD : ℤ → ℚ) (fuel : Nat) (g : GameState)
    (hg : RocksSpeed4 g) : RocksSpeed4 (missilesPhysics sinD cosD fuel g) := by
  unfold missilesPhysics
  split
  · exact rocksSpeed4_missilesLoop sinD cosD fuel g 0 hg
  · exact hg

theorem rocksSpeed4_set_move (g : GameState) (ri : Nat) (hg : RocksSpeed4 g) :
    ∀ r ∈ g.rocks.set ri (g.rocks.getD ri dfltRock).move, r.speed = 4 := by
  intro r hr
  rcases List.mem_or_eq_of_mem_set hr with hmem | heq
  · exact hg r hmem
  · rw [heq, rockMove_speed]
    exact rocksSpeed4_getD g ri hg

theorem rocksSpeed4_rockStep (g : GameState) (ri : Nat) (hg : RocksSpeed4 g) :
    RocksSpeed4 (rockStep g ri) := by
  unfold rockStep
  dsimp only
  have hset : RocksSpeed4
      { g with rocks := g.rocks.set ri (g.rocks.getD ri dfltRock).move } :=
    rocksSpeed4_set_move g ri hg
  split
  · exact hset
  · split
    · split
      · exact rocksSpeed4_makeRock _ _ _ (rocksSpeed4_eraseIdx _ _ hset)
      · exact rocksSpeed4_eraseIdx _ _ hset
    · exact hset

theorem rocksSpeed4_rocksLoop (fuel : Nat) (g : GameState) (ri : Nat)
    (hg : RocksSpeed4 g) : RocksSpeed4 (rocksLoop fuel g ri) := by
  induction fuel generalizing g ri with
  | zero => exact hg
  | succ fuel ih =>
      unfold rocksLoop
      split
      · exact ih _ _ (rocksSpeed4_rockStep g ri hg)
      · exact hg

theorem rocksSpeed4_rocksPhysics (fuel : Nat) (g : GameState) (hg : RocksSpeed4 g) :
    RocksSpeed4 (rocksPhysics fuel g) := by
  unfold rocksPhysics
  split
  · exact rocksSpeed4_rocksLoop fuel g 0 hg
  · exact hg

theorem rocksSpeed4_drawTick (g : GameState) (hg : RocksSpeed4 g) :
    RocksSpeed4 (drawTick g) := by
  unfold drawTick
  dsimp only
  split
  · split
    · intro r hr
      dsimp only at hr
      revert hr
      split
      · exact fun hr => rocksSpeed4_makeRock _ _ _ hg r hr
      · exact fun hr => hg r hr
    · exact hg
  · exact hg

theorem rocksSpeed4_physicsStep (sinD cosD : ℤ → ℚ) (g : GameState) (hg : RocksSpeed4 g) :
    RocksSpeed4 (physicsStep sinD cosD g) := by
  unfold physicsStep
  split
  · exact hg
  · exact hg

theorem rocksSpeed4_fireStep (sinD cosD : ℤ → ℚ) (w h : ℚ) (g : GameState) (now : ℚ)
    (hg : RocksSpeed4 g) : RocksSpeed4 (fireStep sinD cosD w h g now) := hg

theorem rocksSpeed4_playBlock (sinD cosD : ℤ → ℚ) (fuel : Nat) (keys : Keys)
    (g1 : GameState) (hg : RocksSpeed4 g1) : RocksSpeed4 (playBlock sinD cosD fuel keys g1) := by
  unfold playBlock
  exact rocksSpeed4_physicsStep _ _ _
    (rocksSpeed4_rocksPhysics _ _ (rocksSpeed4_missilesPhysics _ _ _ _ hg))

theorem rocksSpeed4_refreshCore (sinD cosD : ℤ → ℚ) (w h : ℚ) (fuel : Nat) (keys : Keys)
    (now : ℚ) (g : GameState) (hg : RocksSpeed4 g) :
    RocksSpeed4 (refreshCore sinD cosD w h fuel keys now g) := by
  unfold refreshCore
  dsimp only
  split
  · split
    · exact rocksSpeed4_playBlock _ _ _ _ _ (rocksSpeed4_fireStep _ _ _ _ _ _ hg)
    · exact rocksSpeed4_fireStep _ _ _ _ _ _ hg
  · split
    · exact rocksSpeed4_playBlock _ _ _ _ _ hg
    · exact hg

theorem rocksSpeed4_doInit (g : GameState) : RocksSpeed4 (doInit g) := by
  unfold doInit
  dsimp only
  intro r hr
  refine rocksSpeed4_makeRock _ _ _ (rocksSpeed4_makeRock _ _ _ (rocksSpeed4_makeRock _ _ _
    (rocksSpeed4_makeRock _ _ _ ?_))) r hr
  intro r' hr'
  simp [startShip] at hr'

theorem rocksSpeed4_onStart (g : GameState) (hg : RocksSpeed4 g) :
    RocksSpeed4 (onStart g) := by
  unfold onStart
  split
  · exact hg
  · intro r hr
    refine rocksSpeed4_makeRock _ _ _ (rocksSpeed4_makeRock _ _ _ (rocksSpeed4_makeRock _ _ _
      (rocksSpeed4_makeRock _ _ _ ?_))) r hr
    intro r' hr'
    simp at hr'

theorem rocksSpeed4_stepEv (sinD cosD : ℤ → ℚ) (w h : ℚ) (fuel : Nat) (g : GameState)
    (e : Ev) (hg : RocksSpeed4 g) : RocksSpeed4 (stepEv sinD cosD w h fuel g e) := by
  cases e with
  | refresh keys now =>
      simp only [stepEv]
      unfold onRefresh
      refine rocksSpeed4_drawTick _ ?_
      split
      · exact hg
      · exact rocksSpeed4_refreshCore sinD cosD w h fuel keys now g hg
  | start => simpa only [stepEv] using rocksSpeed4_onStart g hg
  | restart => simp only [stepEv]; exact hg
  | click =>
      simp only [stepEv]
      split
      · exact rocksSpeed4_doInit g
      · exact hg
  | enter =>
      simp only [stepEv]
      split
      · exact rocksSpeed4_doInit g
      · exact hg

theorem rocksSpeed4_runEvents (sinD cosD : ℤ → ℚ) (w h : ℚ) (fuel : Nat) (es : List Ev)
    (g : GameState) (hg : RocksSpeed4 g) :
    RocksSpeed4 (runEvents sinD cosD w h fuel es g) := by
  induction es generalizing g with
  | nil => exact hg
  | cons e es ih => exact ih _ (rocksSpeed4_stepEv sinD cosD w h fuel g e hg)

/-! ## Claim theorems -/

/-- A rock parked at `(750, 300)` (a position `make_rock` can sample: integer
coordinates in the viewport, at distance exactly 350 ≥ `min_rock_distance`
from the central ship) with the zero direction vector. -/
def rockParked : Rock := { pos := (750, 300), rsize := RSize.big, dir := (0, 0), speed := 4 }

/-- A Playing state one tick before the survival counter reaches 600, with
12 live rocks and the (only reachable) `min_rock_distance` value 350. -/
def gC1 : GameState :=
  { rocks := List.replicate 12 rockParked, ship := freshShip, lives := 3, score := 0,
    counter := 599, minRockDistance := 350, state := GState.PLAYING, fireTime := 0,
    rand := [(750, 300), (0, 0)] }

/-- C1: evaluating the survival-counter tick at the failing input.  When the
counter reaches 600 with 12 (< 15) rocks and `min_rock_distance = 350 > 200`,
the code does spawn one big rock and reset the counter, but it does **not**
decrease `min_rock_distance`: the source guards the decrement with
`if self.min_rock_distance < 200` (line 606), not `> 200`, contradicting both
the claim and the adjacent comment "decrease the minimum rock creation
distance" (and `min_rock_distance` therefore never changes from 350 at all). -/
theorem claim_C1 :
    (drawTick gC1).counter = 0 ∧ (drawTick gC1).rocks.length = 13 ∧
      (drawTick gC1).minRockDistance = 350 := by
  with_unfolding_all decide

/-- C2 (amended): the life-loss transition `die()` is *not* guarded by any
state check: on every invocation — also while already in the Dying state —
it decrements `lives` by exactly 1, resets the survival counter and enters
the Dying state. -/
theorem claim_C2 (g : GameState) :
    (die g).lives = g.lives - 1 ∧ (die g).state = GState.DYING ∧ (die g).counter = 0 :=
  ⟨rfl, rfl, rfl⟩

/-- A freshly initialised Playing session (the post-`do_init` state after a
welcome-screen click), used as the base point of the C2 counterexample. -/
def gC2 : GameState :=
  runEvents sinDTab cosDTab 40 40 100 [Ev.click]
    (initGame [(50, 300), (0, 0), (750, 300), (0, 0), (750, 200), (0, 0), (750, 200), (0, 0)])

/-- C2 counterexample: from a reachable Playing state with 3 lives, a first
`die()` enters the Dying state with 2 lives, and a second `die()` issued
while already Dying (as happens when two rocks breach their death distance in
the same `rocks_physics` pass) decrements lives again, to 1 — the transition
is not idempotent per life. -/
theorem claim_C2_counterexample :
    (die gC2).state = GState.DYING ∧ (die gC2).lives = 2 ∧
      (die (die gC2)).lives = 1 := by
  with_unfolding_all decide

/-- C5 counterexample: at `s = sin(-radians(270°)) = 1`,
`c = cos(radians(270°)) = 0` and sprite width/height 2, the spawn offset the
code computes is `(2, 0)` — the x component uses the **full** sprite width
(`adjust[0] = sin(-radians(angle)) * image.get_width()`, line 127, not
halved) — while the spec's "offset … by the sprite's half-width/half-height"
gives `(1, 0)`. -/
theorem claim_C5_counterexample :
    fireSpawnOffset 1 0 2 2 ≠ fireSpawnOffsetSpec 1 0 2 2 ∧
      fireSpawnOffset 1 0 2 2 = (2, 0) ∧ fireSpawnOffsetSpec 1 0 2 2 = (1, 0) := by
  refine ⟨?_, ?_, ?_⟩ <;> with_unfolding_all decide

/-- C5 (amended): `fire()` appends one missile with the ship's heading and
the fixed speed 15, spawned at the ship's centre offset by
`(sin(-radians(angle)) * width, -cos(radians(angle)) * height / 2)` — the
full sprite width horizontally, half the sprite height vertically; in
particular, at heading 0° the offset is exactly `(0, -height/2)`. -/
theorem claim_C5 (sinD cosD : ℤ → ℚ) (w h : ℚ) (g : GameState) (now : ℚ)
    (hsin : sinD 0 = 0) (hcos : cosD 0 = 1) :
    (fireStep sinD cosD w h g now).ship.missiles =
      g.ship.missiles ++
        [{ pos := (g.ship.pos.1 + sinD (-g.ship.angle) * w,
                   g.ship.pos.2 + -(cosD g.ship.angle * h) / 2),
           angle := g.ship.angle, speed := 15 }] ∧
    (g.ship.angle = 0 →
      (fireStep sinD cosD w h g now).ship.missiles =
        g.ship.missiles ++
          [{ pos := (g.ship.pos.1, g.ship.pos.2 + -(h / 2)), angle := 0, speed := 15 }]) := by
  constructor
  · rfl
  · intro hangle
    unfold fireStep fireSpawnOffset fireAdjust
    simp [hangle, hsin, hcos, neg_div]

/-- C5 witness: the amended fire equation evaluated for the trigonometric
table at a concrete ship (centre `(400, 300)`, heading 0, sprite 40×40). -/
theorem claim_C5_witness :
    (fireStep sinDTab cosDTab 40 40
        { rocks := [], ship := freshShip, lives := 3, score := 0, counter := 0,
          minRockDistance := 350, state := GState.PLAYING, fireTime := 0, rand := [] }
        0).ship.missiles =
      [{ pos := (400, 280), angle := 0, speed := 15 }] := by
  have h := (claim_C5 sinDTab cosDTab 40 40
    { rocks := [], ship := freshShip, lives := 3, score := 0, counter := 0,
      minRockDistance := 350, state := GState.PLAYING, fireTime := 0, rand := [] }
    0 (by with_unfolding_all decide) (by with_unfolding_all decide)).2 rfl
  rw [h]
  with_unfolding_all decide

/-- C7: `Rock.__init__` does **not** reject an unrecognised size with a
validation failure.  Its `return None` (line 178) merely ends `__init__`
early; the caller still receives a `Rock` instance, with *no* attribute
(`image`, `size`, `position`, `speed`, `direction`) assigned — precisely the
silently returned unusable object the claim rules out.  For each of the
three valid categories construction succeeds with `size` set as requested. -/
theorem claim_C7 :
    rockInit (100, 100) "huge" 4 (0, 0) =
      Except.ok { image := none, rsize := none, position := none, speed := none,
                  direction := none } ∧
    rockInit (100, 100) "big" 4 (0, 0) =
      Except.ok { image := some "rock-big.png", rsize := some "big",
                  position := some (100, 100), speed := some 4, direction := some (0, 0) } ∧
    rockInit (100, 100) "normal" 4 (0, 0) =
      Except.ok { image := some "rock-normal.png", rsize := some "normal",
                  position := some (100, 100), speed := some 4, direction := some (0, 0) } ∧
    rockInit (100, 100) "small" 4 (0, 0) =
      Except.ok { image := some "rock-small.png", rsize := some "small",
                  position := some (100, 100), speed := some 4, direction := some (0, 0) } := by
  refine ⟨?_, ?_, ?_, ?_⟩ <;> with_unfolding_all rfl

/-- Points awarded for destroying a rock of each size (20 / 50 / 100 in
`missiles_physics`). -/
def scoreValue : RSize → ℤ
  | .big => 20
  | .normal => 50
  | .small => 100

/-- C4: the missile-hit resolution, for a missile still present in the
active list (`alive = true`) hitting the rock at index `ri`.  A big rock is
removed and replaced by exactly two normal rocks at `x ± 10` (their random
directions drawn from the sample stream); a normal rock by exactly two small
rocks likewise; a small rock is removed and exactly one big rock is spawned
at a sampled position if the rock count *after the removal* is below 10 (the
source checks `len(self.rocks) < 10` after `self.rocks.remove(rock)`),
otherwise none; in every case the missile is removed from the active list. -/
theorem claim_C4 (g : GameState) (mi : Nat) (m : Missile) (ri : Nat) (r : Rock)
    (_hri : ri < g.rocks.length) (hr : g.rocks.getD ri dfltRock = r) :
    (r.rsize = RSize.big → distLtB m.pos r.pos 80 = true →
      missileHitRock g true mi m ri =
        ({ g with
            rocks := g.rocks.eraseIdx ri ++
              [{ pos := (r.pos.1 + 10, r.pos.2), rsize := RSize.normal,
                 dir := (takeSample g.rand).1, speed := 4 },
               { pos := (r.pos.1 - 10, r.pos.2), rsize := RSize.normal,
                 dir := (takeSample (takeSample g.rand).2).1, speed := 4 }],
            ship := { g.ship with missiles := g.ship.missiles.eraseIdx mi },
            score := g.score + 20,
            rand := (takeSample (takeSample g.rand).2).2 }, false)) ∧
    (r.rsize = RSize.normal → distLtB m.pos r.pos 55 = true →
      missileHitRock g true mi m ri =
        ({ g with
            rocks := g.rocks.eraseIdx ri ++
              [{ pos := (r.pos.1 + 10, r.pos.2), rsize := RSize.small,
                 dir := (takeSample g.rand).1, speed := 4 },
               { pos := (r.pos.1 - 10, r.pos.2), rsize := RSize.small,
                 dir := (takeSample (takeSample g.rand).2).1, speed := 4 }],
            ship := { g.ship with missiles := g.ship.missiles.eraseIdx mi },
            score := g.score + 50,
            rand := (takeSample (takeSample g.rand).2).2 }, false)) ∧
    (r.rsize = RSize.small → distLtB m.pos r.pos 30 = true →
      ((g.rocks.eraseIdx ri).length < 10 →
        missileHitRock g true mi m ri =
          ({ g with
              rocks := g.rocks.eraseIdx ri ++
                [{ pos := (findPos g.ship.pos g.minRockDistance g.rand).1, rsize := RSize.big,
                   dir := (takeSample (findPos g.ship.pos g.minRockDistance g.rand).2).1,
                   speed := 4 }],
              ship := { g.ship with missiles := g.ship.missiles.eraseIdx mi },
              score := g.score + 100,
              rand := (takeSample (findPos g.ship.pos g.minRockDistance g.rand).2).2 }, false)) ∧
      (¬ (g.rocks.eraseIdx ri).length < 10 →
        missileHitRock g true mi m ri =
          ({ g with
              rocks := g.rocks.eraseIdx ri,
              ship := { g.ship with missiles := g.ship.missiles.eraseIdx mi },
              score := g.score + 100 }, false))) := by
  refine ⟨?_, ?_, ?_⟩
  · intro hsize hhit
    unfold missileHitRock
    rw [hr]
    dsimp only
    rw [hsize]
    simp only [hitThreshold]
    rw [hhit]
    simp [makeRock, List.append_assoc]
  · intro hsize hhit
    unfold missileHitRock
    rw [hr]
    dsimp only
    rw [hsize]
    simp only [hitThreshold]
    rw [hhit]
    simp [makeRock, List.append_assoc]
  · intro hsize hhit
    unfold missileHitRock
    rw [hr]
    dsimp only
    rw [hsize]
    simp only [hitThreshold]
    rw [hhit]
    constructor
    · intro hlen
      rw [if_pos rfl]
      simp only [if_pos hlen]
      simp [makeRock, List.append_assoc]
    · intro hlen
      rw [if_pos rfl]
      simp only [if_neg hlen]
      simp [makeRock]

/-- C9: score deltas.  For any game state, any missile and any rock the
missile hits, the score increases by exactly `scoreValue` of the rock's size
category — 20 for big, 50 for normal, 100 for small — independently of the
rock's position, the missile, and the rest of the state. -/
theorem claim_C9 (g : GameState) (a : Bool) (mi : Nat) (m : Missile) (ri : Nat) (r : Rock)
    (_hri : ri < g.rocks.length) (hr : g.rocks.getD ri dfltRock = r)
    (hhit : distLtB m.pos r.pos (hitThreshold r.rsize) = true) :
    (missileHitRock g a mi m ri).1.score = g.score + scoreValue r.rsize := by
  unfold missileHitRock
  dsimp only
  rw [hr, hhit, if_pos rfl]
  cases hsz : r.rsize <;> simp only [scoreValue]
  · simp [makeRock]
  · simp [makeRock]
  · split <;> simp [makeRock]

/-- C8 (amended): the 10–15 population bounds only gate the *random* spawn
paths — the small-rock replacement and the off-screen respawn require fewer
than 10 live rocks, and the 20-second difficulty spawn requires fewer than
15 — but splitting is unconditional: every hit on a big or normal rock
removes one rock and appends two, a net gain of one with no cap whatsoever,
so the rock count can exceed 15 (see the counterexample trace). -/
theorem claim_C8 (g : GameState) (mi : Nat) (m : Missile) (ri : Nat) (r : Rock)
    (hri : ri < g.rocks.length) (hr : g.rocks.getD ri dfltRock = r) :
    (r.rsize = RSize.big → distLtB m.pos r.pos 80 = true →
      (missileHitRock g true mi m ri).1.rocks.length = g.rocks.length + 1) ∧
    (r.rsize = RSize.normal → distLtB m.pos r.pos 55 = true →
      (missileHitRock g true mi m ri).1.rocks.length = g.rocks.length + 1) ∧
    (∀ g' : GameState, g'.state = GState.PLAYING → g'.counter + 1 = 600 →
      15 ≤ g'.rocks.length → (drawTick g').rocks = g'.rocks) := by
  refine ⟨?_, ?_, ?_⟩
  · intro hsize hhit
    unfold missileHitRock
    rw [hr]
    dsimp only
    rw [hsize]
    simp only [hitThreshold]
    rw [hhit]
    simp [makeRock, List.length_eraseIdx, hri]
    omega
  · intro hsize hhit
    unfold missileHitRock
    rw [hr]
    dsimp only
    rw [hsize]
    simp only [hitThreshold]
    rw [hhit]
    simp [makeRock, List.length_eraseIdx, hri]
    omega
  · intro g' hstate hcounter hlen
    unfold drawTick
    rw [hstate]
    simp only [if_pos rfl, hcounter, if_pos rfl]
    rw [if_neg (show ¬ g'.rocks.length < 15 by omega)]
    simp

/-- A loop whose index is already past the end of the rock list does
nothing, whatever fuel is left. -/
theorem rocksLoop_idle (fuel : Nat) (g : GameState) (ri : Nat)
    (h : g.rocks.length ≤ ri) : rocksLoop fuel g ri = g := by
  cases fuel with
  | zero => rfl
  | succ fuel => unfold rocksLoop; rw [if_neg (by omega)]

/-- C3 (amended): `lives ≥ 0` is not an invariant.  `rocks_physics` invokes
`die()` once per rock whose (moved) position breaches its death distance, so
a tick in which both of the two live rocks breach decrements `lives` by
exactly 2 and leaves the session Dying — from a one-life state this yields
`lives = -1` (realised by the counterexample trace). -/
theorem claim_C3 (g : GameState) (r1 r2 : Rock) (fuel : Nat) (hfuel : 2 ≤ fuel)
    (hrocks : g.rocks = [r1, r2])
    (h1 : distLtB r1.move.pos g.ship.pos (deathDistance r1.move.rsize) = true)
    (h2 : distLtB r2.move.pos g.ship.pos (deathDistance r2.move.rsize) = true) :
    (rocksPhysics fuel g).lives = g.lives - 2 ∧
      (rocksPhysics fuel g).state = GState.DYING := by
  obtain ⟨f, rfl⟩ : ∃ f, fuel = f + 2 := ⟨fuel - 2, by omega⟩
  unfold rocksPhysics
  rw [if_pos (show g.rocks.length > 0 by rw [hrocks]; simp)]
  unfold rocksLoop
  rw [if_pos (show 0 < g.rocks.length by rw [hrocks]; simp)]
  unfold rocksLoop
  rw [if_pos (show 1 < (rockStep g 0).rocks.length by simp [rockStep, hrocks, h1, die])]
  rw [rocksLoop_idle _ _ _ (show (rockStep (rockStep g 0) 1).rocks.length ≤ 2 by
    simp [rockStep, hrocks, h1, h2, die])]
  constructor
  · simp [rockStep, hrocks, h1, h2, die]
    omega
  · simp [rockStep, hrocks, h1, h2, die]

/-- Two rocks parked at death distance, both breaching in the same tick. -/
def rC3w : Rock := { pos := (350, 300), rsize := RSize.big, dir := (0, 0), speed := 4 }

/-- A Playing state whose two rocks both sit 50 units from the ship (well
inside the big-rock death distance 90). -/
def gC3w : GameState :=
  { rocks := [rC3w, rC3w], ship := freshShip, lives := 3, score := 0, counter := 7,
    minRockDistance := 350, state := GState.PLAYING, fireTime := 0, rand := [] }

/-- C3 witness: the amended claim evaluated at a concrete two-rock tick —
lives drop from 3 to 1 in a single `rocks_physics` pass. -/
theorem claim_C3_witness :
    (rocksPhysics 2 gC3w).lives = 1 ∧ (rocksPhysics 2 gC3w).state = GState.DYING := by
  have h := claim_C3 gC3w rC3w rC3w 2 (by norm_num) rfl
    (by with_unfolding_all decide) (by with_unfolding_all decide)
  exact ⟨h.1.trans (by with_unfolding_all decide), h.2⟩

/-- A big rock 20 units from the test missile. -/
def rC4w : Rock := { pos := (100, 300), rsize := RSize.big, dir := (0, 0), speed := 4 }

/-- The test missile for the C4 witness. -/
def mC4w : Missile := { pos := (120, 300), angle := 0, speed := 15 }

/-- A Playing state with one big rock and one active missile about to hit it. -/
def gC4w : GameState :=
  { rocks := [rC4w], ship := { freshShip with missiles := [mC4w] }, lives := 3, score := 0,
    counter := 0, minRockDistance := 350, state := GState.PLAYING, fireTime := 0,
    rand := [(0, 0), (0, 0)] }

/-- C4 witness: the hit equation evaluated concretely — the big rock at
`(100,300)` is replaced by two normal rocks at `(110,300)` and `(90,300)`,
the missile is removed, and 20 points are scored. -/
theorem claim_C4_witness :
    missileHitRock gC4w true 0 mC4w 0 =
      ({ gC4w with
          rocks := [{ pos := (110, 300), rsize := RSize.normal, dir := (0, 0), speed := 4 },
                    { pos := (90, 300), rsize := RSize.normal, dir := (0, 0), speed := 4 }],
          ship := { freshShip with missiles := [] },
          score := 20, rand := [] }, false) := by
  have h := (claim_C4 gC4w 0 mC4w 0 rC4w (by with_unfolding_all decide) rfl).1 rfl
    (by with_unfolding_all decide)
  rw [h]
  with_unfolding_all decide

/-- A normal rock 20 units from the test missile. -/
def rC9w : Rock := { pos := (100, 300), rsize := RSize.normal, dir := (0, 0), speed := 4 }

/-- The test missile for the C9 witness. -/
def mC9w : Missile := { pos := (120, 300), angle := 0, speed := 15 }

/-- A Playing state with score 7 and one normal rock about to be hit. -/
def gC9w : GameState :=
  { rocks := [rC9w], ship := freshShip, lives := 3, score := 7, counter := 0,
    minRockDistance := 350, state := GState.PLAYING, fireTime := 0, rand := [(0, 0), (0, 0)] }

/-- C9 witness: destroying a normal rock adds exactly 50 points (7 → 57). -/
theorem claim_C9_witness : (missileHitRock gC9w true 0 mC9w 0).1.score = 57 := by
  have h := claim_C9 gC9w true 0 mC9w 0 rC9w (by with_unfolding_all decide) rfl
    (by with_unfolding_all decide)
  exact h.trans (by with_unfolding_all decide)

/-- A state already holding 15 rocks, the first of which is about to be hit. -/
def gC8w : GameState :=
  { rocks := rC4w :: List.replicate 14 rockParked,
    ship := { freshShip with missiles := [mC4w] }, lives := 3, score := 0, counter := 0,
    minRockDistance := 350, state := GState.PLAYING, fireTime := 0, rand := [(0, 0), (0, 0)] }

/-- C8 witness: splitting the big rock of a 15-rock state yields 16 rocks —
the split path has no population cap. -/
theorem claim_C8_witness : (missileHitRock gC8w true 0 mC4w 0).1.rocks.length = 16 := by
  have h := (claim_C8 gC8w 0 mC4w 0 rC4w (by with_unfolding_all decide) rfl).1 rfl
    (by with_unfolding_all decide)
  exact h.trans (by with_unfolding_all decide)

/-- C6: ship speed bounds and the thrust/drag step.  For every trigonometric
oracle, sprite size, fuel bound, event sequence and sample stream, the
ship's speed in the state reached from program start stays in `[0, 20]`;
moreover one tick's speed update increments by exactly 1 below the cap 20,
holds at the cap, decrements by exactly 1 above the floor 0 and holds at the
floor. -/
theorem claim_C6 :
    (∀ (sinD cosD : ℤ → ℚ) (w h : ℚ) (fuel : Nat) (es : List Ev) (rand : List (ℚ × ℚ)),
      0 ≤ (runEvents sinD cosD w h fuel es (initGame rand)).ship.speed ∧
        (runEvents sinD cosD w h fuel es (initGame rand)).ship.speed ≤ 20) ∧
    (∀ s : ℤ, s < 20 → speedStep true s = s + 1) ∧
    (∀ s : ℤ, ¬ s < 20 → speedStep true s = s) ∧
    (∀ s : ℤ, 0 < s → speedStep false s = s - 1) ∧
    (∀ s : ℤ, ¬ 0 < s → speedStep false s = s) := by
  refine ⟨?_, ?_, ?_, ?_, ?_⟩
  · intro sinD cosD w h fuel es rand
    exact runEvents_ship_speed sinD cosD w h fuel es (initGame rand)
      (le_refl 0) (show (0:ℤ) ≤ 20 by norm_num)
  · intro s hs; simp [speedStep, hs]
  · intro s hs; simp [speedStep, hs]
  · intro s hs; unfold speedStep; rw [if_neg (by simp), if_pos hs]
  · intro s hs; unfold speedStep; rw [if_neg (by simp), if_neg hs]

/-- C6 witness: the bounds at a concrete run and the four speed-step
equations at concrete speeds. -/
theorem claim_C6_witness :
    (0 ≤ (runEvents sinDTab cosDTab 40 40 1 [Ev.click] (initGame [])).ship.speed ∧
      (runEvents sinDTab cosDTab 40 40 1 [Ev.click] (initGame [])).ship.speed ≤ 20) ∧
    speedStep true 5 = 6 ∧ speedStep true 20 = 20 ∧
    speedStep false 5 = 4 ∧ speedStep false 0 = 0 := by
  refine ⟨claim_C6.1 sinDTab cosDTab 40 40 1 [Ev.click] [], ?_, ?_, ?_, ?_⟩
  · exact (claim_C6.2.1 5 (by norm_num)).trans (by norm_num)
  · exact claim_C6.2.2.1 20 (by norm_num)
  · exact (claim_C6.2.2.2.1 5 (by norm_num)).trans (by norm_num)
  · exact claim_C6.2.2.2.2 0 (by norm_num)

/-- C10: every rock of every state reached from program start — under any
trigonometric oracle, sprite size, fuel bound, event sequence and sample
stream — has scalar speed 4 (rocks are only ever created through
`make_rock`, which uses the constructor's default `speed=4`, and no
operation writes the field), and a move of a speed-4 rock advances its
position by exactly `direction * 4` while keeping the speed at 4. -/
theorem claim_C10 :
    (∀ (sinD cosD : ℤ → ℚ) (w h : ℚ) (fuel : Nat) (es : List Ev) (rand : List (ℚ × ℚ)),
      ∀ r ∈ (runEvents sinD cosD w h fuel es (initGame rand)).rocks, r.speed = 4) ∧
    (∀ r : Rock, r.speed = 4 → r.move.speed = 4 ∧
      r.move.pos = (r.pos.1 + r.dir.1 * 4, r.pos.2 + r.dir.2 * 4)) := by
  constructor
  · intro sinD cosD w h fuel es rand
    refine rocksSpeed4_runEvents sinD cosD w h fuel es (initGame rand) ?_
    intro r hr
    simp [initGame] at hr
  · intro r h4
    refine ⟨(rockMove_speed r).trans h4, ?_⟩
    unfold Rock.move
    rw [h4]

/-- The sample stream of the C10 witness run (4 spawn positions at valid
distance from the central ship, each followed by a direction draw). -/
def c10Rand : List (ℚ × ℚ) :=
  [(50, 300), (0, 0), (750, 300), (0, 0), (750, 200), (0, 0), (750, 200), (0, 0)]

/-- C10 witness: the first rock of a freshly initialised session has speed
4, and a concrete speed-4 rock moves by `direction * 4`. -/
theorem claim_C10_witness :
    ((runEvents sinDTab cosDTab 40 40 1 [Ev.click] (initGame c10Rand)).rocks.getD 0
        dfltRock).speed = 4 ∧
    (Rock.move { pos := (5, 5), rsize := RSize.big, dir := (1/2, 1/2), speed := 4 }).pos
      = (7, 7) := by
  constructor
  · exact claim_C10.1 sinDTab cosDTab 40 40 1 [Ev.click] c10Rand _
      (by with_unfolding_all decide)
  · exact ((claim_C10.2 _ rfl).2).trans (by with_unfolding_all decide)

/-! ## Counterexample traces

Concrete sessions from program start, driven by explicit events and sample
streams.  Every sample supplied is one the Python RNG can produce (integer
viewport positions at acceptable distance from the ship; direction
components in `(-1, 1)` — `random.random()` can return exactly `0.0`, and
`±0.5` is an exact float), every timestamp advances like a 30 Hz clock, and
every trigonometric value consumed is taken at a multiple of 90°, where
`sinDTab`/`cosDTab` agree exactly with `math.sin`/`math.cos` of the radian
conversion.  The sprite size is instantiated at 40×40 pixels; the C3 trace
never fires, so it does not depend on that choice. -/

/-- Samples for the C3 trace: per life, two "attacker" big rocks spawned at
`(50,300)` and `(750,300)` (distance exactly 350 from the central ship, so
accepted) drifting horizontally towards the ship at half speed, and two
parked rocks at `(750,200)`. -/
def c3Rand : List (ℚ × ℚ) :=
  [(50, 300), (1/2, 0), (750, 300), (-1/2, 0), (750, 200), (0, 0), (750, 200), (0, 0),
   (50, 300), (1/2, 0), (750, 300), (-1/2, 0), (750, 200), (0, 0), (750, 200), (0, 0)]

/-- Events of the C3 trace: click to start, 131 quiet ticks (after which
both attackers are 88 < 90 units from the ship, so both breach in the same
`rocks_physics` pass and `die()` runs twice: lives 3 → 1), three ticks in
the Dying state, the START timer (1 life left → new life, rocks respawned),
and 131 more quiet ticks (both fresh attackers breach again: lives 1 → -1).
The trace is cut into four chunks so that each piece can be evaluated
separately. -/
def c3Ev1 : List Ev := [Ev.click] ++ List.replicate 66 (Ev.refresh noKeys 0)

/-- Second chunk of the C3 trace: the remaining 65 quiet ticks of the first
life, three Dying ticks, and the START timer event. -/
def c3Ev2 : List Ev :=
  List.replicate 65 (Ev.refresh noKeys 0) ++ List.replicate 3 (Ev.refresh noKeys 0)
    ++ [Ev.start]

/-- Third chunk of the C3 trace: 66 quiet ticks of the second life. -/
def c3Ev3 : List Ev := List.replicate 66 (Ev.refresh noKeys 0)

/-- Fourth chunk of the C3 trace: the final 65 quiet ticks. -/
def c3Ev4 : List Ev := List.replicate 65 (Ev.refresh noKeys 0)

/-- The whole C3 event trace. -/
def c3Events : List Ev := ((c3Ev1 ++ c3Ev2) ++ c3Ev3) ++ c3Ev4

/-- Running consecutive event lists composes. -/
theorem runEvents_append (sinD cosD : ℤ → ℚ) (w h : ℚ) (fuel : Nat) (es1 es2 : List Ev)
    (g : GameState) :
    runEvents sinD cosD w h fuel (es1 ++ es2) g =
      runEvents sinD cosD w h fuel es2 (runEvents sinD cosD w h fuel es1 g) := by
  simp [runEvents, List.foldl_append]

/-- The C3 trace state after chunk 1: 66 ticks into the first life. -/
def c3Mid1 : GameState :=
  { rocks := [{ pos := (182, 300), rsize := RSize.big, dir := (1/2, 0), speed := 4 },
              { pos := (618, 300), rsize := RSize.big, dir := (-1/2, 0), speed := 4 },
              { pos := (750, 200), rsize := RSize.big, dir := (0, 0), speed := 4 },
              { pos := (750, 200), rsize := RSize.big, dir := (0, 0), speed := 4 }],
    ship := freshShip, lives := 3, score := 0, counter := 66, minRockDistance := 350,
    state := GState.PLAYING, fireTime := 0,
    rand := [(50, 300), (1/2, 0), (750, 300), (-1/2, 0), (750, 200), (0, 0),
             (750, 200), (0, 0)] }

/-- The C3 trace state after chunk 2: the double death has happened
(lives 3 → 1) and the START handler has re-spawned the rocks for life 2. -/
def c3Mid2 : GameState :=
  { rocks := [{ pos := (50, 300), rsize := RSize.big, dir := (1/2, 0), speed := 4 },
              { pos := (750, 300), rsize := RSize.big, dir := (-1/2, 0), speed := 4 },
              { pos := (750, 200), rsize := RSize.big, dir := (0, 0), speed := 4 },
              { pos := (750, 200), rsize := RSize.big, dir := (0, 0), speed := 4 }],
    ship := freshShip, lives := 1, score := 0, counter := 0, minRockDistance := 350,
    state := GState.PLAYING, fireTime := 0, rand := [] }

/-- The C3 trace state after chunk 3: 66 ticks into the second life. -/
def c3Mid3 : GameState :=
  { rocks := [{ pos := (182, 300), rsize := RSize.big, dir := (1/2, 0), speed := 4 },
              { pos := (618, 300), rsize := RSize.big, dir := (-1/2, 0), speed := 4 },
              { pos := (750, 200), rsize := RSize.big, dir := (0, 0), speed := 4 },
              { pos := (750, 200), rsize := RSize.big, dir := (0, 0), speed := 4 }],
    ship := freshShip, lives := 1, score := 0, counter := 66, minRockDistance := 350,
    state := GState.PLAYING, fireTime := 0, rand := [] }

set_option maxRecDepth 40000 in
theorem c3_chunk1 :
    runEvents sinDTab cosDTab 40 40 100 c3Ev1 (initGame c3Rand) = c3Mid1 := by
  with_unfolding_all decide

set_option maxRecDepth 40000 in
theorem c3_chunk2 : runEvents sinDTab cosDTab 40 40 100 c3Ev2 c3Mid1 = c3Mid2 := by
  with_unfolding_all decide

set_option maxRecDepth 40000 in
theorem c3_chunk3 : runEvents sinDTab cosDTab 40 40 100 c3Ev3 c3Mid2 = c3Mid3 := by
  with_unfolding_all decide

set_option maxRecDepth 40000 in
/-- C3 counterexample: a session reachable from program start in which the
lives counter is `-1` — two obstacles breaching their death distance in the
same tick decrement `lives` twice, and nothing stops this from happening on
a one-life state. -/
theorem claim_C3_counterexample :
    (runEvents sinDTab cosDTab 40 40 100 c3Events (initGame c3Rand)).lives = -1 := by
  rw [show c3Events = ((c3Ev1 ++ c3Ev2) ++ c3Ev3) ++ c3Ev4 from rfl,
      runEvents_append, runEvents_append, runEvents_append,
      c3_chunk1, c3_chunk2, c3_chunk3]
  with_unfolding_all decide

/-- Keys with only the left-rotation key held. -/
def leftKey : Keys := { space := false, right := false, left := true, up := false }

/-- Keys with only the fire key held. -/
def spaceKey : Keys := { space := true, right := false, left := false, up := false }

/-- Samples for the C8 trace: the four initial big rocks all spawn at
`(50, 345)` (distance √(350² + 45²) > 350 from the ship, so accepted) with
zero drift; the twelve splits each draw one zero direction. -/
def c8Rand : List (ℚ × ℚ) :=
  [(50, 345), (0, 0), (50, 345), (0, 0), (50, 345), (0, 0), (50, 345), (0, 0)]
    ++ List.replicate 16 ((0 : ℚ), (0 : ℚ))

/-- Events of the C8 trace: click to start, 9 ticks rotating left to heading
90° (missiles then fly in the exact `-x` direction), then 51 ticks holding
fire (the 0.15 s gate lets a missile out every 5th tick).  Missiles cruise
along `y = 300`; the stacked big rocks at `(50, 345)` are within the big hit
threshold 80 of that line, their normal children within 55, but the small
grandchildren (threshold 30 < 45) are unreachable, so the twelve splits
(4 big + 8 normal hits, each a net `+1`) accumulate without losses:
4 rocks → 16 rocks. -/
def c8Events : List Ev :=
  [Ev.click] ++ (List.range 9).map (fun i => Ev.refresh leftKey ((i : ℚ) / 30))
    ++ (List.range 51).map (fun i => Ev.refresh spaceKey (((i + 9 : Nat) : ℚ) / 30))

set_option maxRecDepth 40000 in
/-- C8 counterexample: a session reachable from program start (with 40×40
sprites) in which 16 obstacles are live — splitting big and normal rocks is
not gated by any population cap, so the 10–15 bound does not hold. -/
theorem claim_C8_counterexample :
    (runEvents sinDTab cosDTab 40 40 200 c8Events (initGame c8Rand)).rocks.length = 16 := by
  with_unfolding_all decide

end Asteroids
